import Mathlib

/-!
Verification of the statement-diagnostics view component
(pkg/ui/workspaces/cluster-ui/src/statementDetails/diagnostics/diagnosticsView.tsx).

The component is embedded shallowly: props and local state become structures,
event handlers become pure functions returning the list of callback effects
they fire, and render becomes a pure function from props and state to a
rendered-view value. Optional callback props and the activation ref are
modelled by presence flags; a handler fires its effect only when the
corresponding flag is set, mirroring the guards in the source.

Helpers imported by the component from sibling modules that are not part of
this excerpt (the report type, the time-scale filter, the base path) are
modelled from the specification, as marked on each definition.
-/

/-- Modelled from the spec: the `StatementDiagnosticsReport` type imported
from `../../api` is not part of this excerpt. Per the spec data model, a
report carries a server-assigned identifier, the owning statement
fingerprint, a completion flag, a request timestamp, and (when completed)
a bundle identifier used to build the download link. Timestamps are unix
seconds; the bundle identifier is optional, as it is absent while pending. -/
structure StatementDiagnosticsReport where
  id : String
  statement_fingerprint : String
  completed : Bool
  statement_diagnostics_id : Option String
  requested_at : Int
  deriving DecidableEq, Repr

/-- Modelled from the spec: `TimeScale` (from `src/timeScaleDropdown`) is an
opaque value describing a time window, used only to filter the report list
by request timestamp. It is modelled by the window it implies. -/
structure TimeScale where
  windowStart : Int
  windowEnd : Int
  deriving DecidableEq, Repr

/-- Modelled from the spec: whether a timestamp falls inside the window
implied by a time scale. -/
def inWindow (ts : TimeScale) (t : Int) : Bool :=
  decide (ts.windowStart ≤ t) && decide (t ≤ ts.windowEnd)

/-- A data-source row: the spread copy of a report extended with the
ephemeral `key` field, as built in `render` by
`diagnosticsReports.map((diagnosticsReport, idx) => ({...diagnosticsReport, key: idx}))`. -/
structure KeyedReport where
  report : StatementDiagnosticsReport
  key : Nat
  deriving DecidableEq, Repr

/-- The indexed map in `render`: pairs each report with its index in the
unfiltered input list, starting from `n`. `withKeys reports 0` embeds
`reports.map((r, idx) => ({...r, key: idx}))`. -/
def withKeys : List StatementDiagnosticsReport → Nat → List KeyedReport
  | [], _ => []
  | r :: rs, n => ⟨r, n⟩ :: withKeys rs (n + 1)

/-- Modelled from the spec: `filterByTimeScale` (from `./diagnosticsUtils`)
is not part of this excerpt. Per the spec, it selects only reports whose
request timestamp falls inside the window implied by the current time
scale; filtering is pure and order-preserving. -/
def filterByTimeScale (reports : List KeyedReport) (ts : TimeScale) : List KeyedReport :=
  reports.filter (fun r => inWindow ts r.report.requested_at)

/-- The `dataSource` local of `render`: key the full unfiltered report list
by index, then filter by the current time scale. -/
def dataSource (reports : List StatementDiagnosticsReport) (ts : TimeScale) : List KeyedReport :=
  filterByTimeScale (withKeys reports 0) ts

/-- The `readyToRequestDiagnostics` local of `render`:
`diagnosticsReports.every(diagnostic => diagnostic.completed)`. -/
def readyToRequestDiagnostics (reports : List StatementDiagnosticsReport) : Bool :=
  reports.all (fun diagnostic => diagnostic.completed)

/-- One observable callback invocation fired by the component. Each
constructor records the callback called and the exact arguments passed. -/
inductive Effect where
  | dismissAlert : Effect
  | downloadClicked : String → Effect
  | cancelClicked : StatementDiagnosticsReport → Effect
  | sortingChanged : String → String → Bool → Effect
  | showModalFor : Option String → Effect
  deriving DecidableEq, Repr

/-- The props of `DiagnosticsView`. Optional callbacks and the activation
ref target are modelled by presence flags (`true` means the caller supplied
the callback, respectively the ref chain `ref?.current` is non-null). -/
structure DiagnosticsViewProps where
  hasData : Bool
  diagnosticsReports : List StatementDiagnosticsReport
  showDiagnosticsViewLink : Bool
  hasActivateDiagnosticsRef : Bool
  currentScale : TimeScale
  statementFingerprint : Option String
  hasOnDownloadDiagnosticBundleClick : Bool
  hasOnDiagnosticCancelRequestClick : Bool
  hasOnSortingChange : Bool
  deriving DecidableEq, Repr

/-- The local sort state `{ascending, columnTitle}`. -/
structure SortSetting where
  ascending : Bool
  columnTitle : String
  deriving DecidableEq, Repr

/-- The component state: exactly one field, `sortSetting`. -/
structure DiagnosticsViewState where
  sortSetting : SortSetting
  deriving DecidableEq, Repr

/-- The constructor initial state:
`{sortSetting: {ascending: true, columnTitle: "activatedOn"}}`. -/
def initialState : DiagnosticsViewState :=
  ⟨⟨true, "activatedOn"⟩⟩

/-- The download-button onClick in the actions cell:
`this.props.onDownloadDiagnosticBundleClick && this.props.onDownloadDiagnosticBundleClick(diagnostic.statement_fingerprint)`. -/
def onDownloadDiagnosticBundleClick (props : DiagnosticsViewProps)
    (diagnostic : StatementDiagnosticsReport) : List Effect :=
  if props.hasOnDownloadDiagnosticBundleClick then
    [Effect.downloadClicked diagnostic.statement_fingerprint]
  else []

/-- The cancel-button onClick in the actions cell:
`this.props.onDiagnosticCancelRequestClick && this.props.onDiagnosticCancelRequestClick(diagnostic)`. -/
def onDiagnosticCancelRequestClick (props : DiagnosticsViewProps)
    (diagnostic : StatementDiagnosticsReport) : List Effect :=
  if props.hasOnDiagnosticCancelRequestClick then
    [Effect.cancelClicked diagnostic]
  else []

/-- The activate-diagnostics onClick (both empty and populated view):
`activateDiagnosticsRef?.current?.showModalFor(statementFingerprint)`.
The optional chaining makes a missing ref target a silent no-op. -/
def activateDiagnosticsClick (props : DiagnosticsViewProps) : List Effect :=
  if props.hasActivateDiagnosticsRef then
    [Effect.showModalFor props.statementFingerprint]
  else []

/-- JavaScript template-literal interpolation of a possibly absent value:
an undefined value renders as the string "undefined". -/
def templateValue : Option String → String
  | some s => s
  | none => "undefined"

/-- The download href built in the actions cell:
the base path, then `/_admin/v1/stmtbundle/`, then the bundle identifier.
`basePath` stands for the `getBasePath()` result (from `../../api`, not
part of this excerpt). -/
def stmtBundleHref (basePath : String) (diagnostic : StatementDiagnosticsReport) : String :=
  basePath ++ "/_admin/v1/stmtbundle/" ++ templateValue diagnostic.statement_diagnostics_id

/-- The rendered actions cell: either a download button (with its href and
onClick effects) or a cancel button (with its onClick effects). -/
inductive ActionsCell where
  | downloadButton : String → List Effect → ActionsCell
  | cancelButton : List Effect → ActionsCell
  deriving DecidableEq, Repr

/-- The actions column cell function: a download button when the report is
completed, else a cancel button. -/
def actionsCell (props : DiagnosticsViewProps) (basePath : String)
    (diagnostic : StatementDiagnosticsReport) : ActionsCell :=
  if diagnostic.completed then
    ActionsCell.downloadButton (stmtBundleHref basePath diagnostic)
      (onDownloadDiagnosticBundleClick props diagnostic)
  else
    ActionsCell.cancelButton (onDiagnosticCancelRequestClick props diagnostic)

/-- The status column sort key: `String(diagnostic.completed)`. -/
def statusSortKey (diagnostic : StatementDiagnosticsReport) : String :=
  toString diagnostic.completed

/-- The actions column sort key: `String(diagnostic.completed)`. -/
def actionsSortKey (diagnostic : StatementDiagnosticsReport) : String :=
  toString diagnostic.completed

/-- The `onSortingChange` class method. It fires the parent callback (when
supplied) with the fixed label "Diagnostics", the column title and the
direction, and then sets the local state; the returned pair lists the
effects in firing order, followed by the state installed by `setState`. -/
def handleSortingChange (props : DiagnosticsViewProps) (ss : SortSetting) :
    List Effect × DiagnosticsViewState :=
  (if props.hasOnSortingChange then
     [Effect.sortingChanged "Diagnostics" ss.columnTitle ss.ascending]
   else [],
   ⟨⟨ss.ascending, ss.columnTitle⟩⟩)

/-- The `componentWillUnmount` lifecycle method:
`this.props.dismissAlertMessage()`, unconditionally. -/
def componentWillUnmount (_props : DiagnosticsViewProps) : List Effect :=
  [Effect.dismissAlert]

/-- The rendered empty-state view (`EmptyDiagnosticsView`): the activate
call-to-action onClick effects and whether the history link is shown. -/
structure EmptyView where
  activateOnClick : List Effect
  showHistoryLink : Bool
  deriving DecidableEq, Repr

/-- Builds the empty-state view from props, as `EmptyDiagnosticsView`
spreads this component props. -/
def emptyDiagnosticsView (props : DiagnosticsViewProps) : EmptyView :=
  ⟨activateDiagnosticsClick props, props.showDiagnosticsViewLink⟩

/-- The rendered populated view: the activate-diagnostics button
(`none` when not rendered, `some enabled` when rendered), its onClick
effects, the table data source, the sort setting driving the table, and
whether the footer history link is shown. -/
structure PopulatedView where
  activateButton : Option Bool
  activateOnClick : List Effect
  tableData : List KeyedReport
  sortSetting : SortSetting
  showHistoryLink : Bool
  deriving DecidableEq, Repr

/-- The render result: the empty-state view or the populated table view. -/
inductive ViewOutput where
  | emptyView : EmptyView → ViewOutput
  | populatedView : PopulatedView → ViewOutput
  deriving DecidableEq, Repr

/-- The `render` method. When `hasData` is false it returns the
empty-state view; otherwise the populated view, whose activate button is
rendered exactly when `readyToRequestDiagnostics` holds and is then
enabled iff `disabled = !readyToRequestDiagnostics` is false. -/
def render (props : DiagnosticsViewProps) (state : DiagnosticsViewState) : ViewOutput :=
  if !props.hasData then
    ViewOutput.emptyView (emptyDiagnosticsView props)
  else
    ViewOutput.populatedView
      ⟨if readyToRequestDiagnostics props.diagnosticsReports then
          some (!(!readyToRequestDiagnostics props.diagnosticsReports))
        else none,
       activateDiagnosticsClick props,
       dataSource props.diagnosticsReports props.currentScale,
       state.sortSetting,
       props.showDiagnosticsViewLink⟩

/-- A sample time scale whose window is the interval from 0 to 100. -/
def sampleScale : TimeScale := ⟨0, 100⟩

/-- A sample completed report with bundle identifier 42. -/
def sampleCompletedReport : StatementDiagnosticsReport :=
  ⟨"7", "SELECT _", true, some "42", 10⟩

/-- A sample pending (not completed) report. -/
def samplePendingReport : StatementDiagnosticsReport :=
  ⟨"8", "SELECT _", false, none, 20⟩

/-- Sample props with data and every optional callback supplied. -/
def sampleProps : DiagnosticsViewProps :=
  ⟨true, [sampleCompletedReport], false, true, sampleScale, some "SELECT _",
   true, true, true⟩

/-- Sample props with no optional callback supplied and a null ref target. -/
def sampleNoCallbackProps : DiagnosticsViewProps :=
  ⟨true, [samplePendingReport], false, false, sampleScale, some "SELECT _",
   false, false, false⟩

/-- Sample props with `hasData = false` but a nonempty report list. -/
def sampleEmptyStateProps : DiagnosticsViewProps :=
  ⟨false, [sampleCompletedReport, samplePendingReport], true, true, sampleScale,
   none, true, true, true⟩

/-! ## Helper lemmas about the keyed data source -/

/-- Dropping the keys recovers the input list unchanged. -/
theorem withKeys_map_report (l : List StatementDiagnosticsReport) :
    ∀ n, (withKeys l n).map KeyedReport.report = l := by
  induction l with
  | nil => intro n; rfl
  | cons r rs ih => intro n; simp [withKeys, ih]

/-- Every keyed element records the input position of its report: keying
from `n`, the key is at least `n` and the report sits at offset
`key - n` in the input list. -/
theorem withKeys_lookup (l : List StatementDiagnosticsReport) :
    ∀ n k, k ∈ withKeys l n → n ≤ k.key ∧ l[k.key - n]? = some k.report := by
  induction l with
  | nil => intro n k hk; simp [withKeys] at hk
  | cons r rs ih =>
    intro n k hk
    simp only [withKeys, List.mem_cons] at hk
    rcases hk with rfl | hk
    · exact ⟨Nat.le_refl n, by simp⟩
    · obtain ⟨h1, h2⟩ := ih (n + 1) k hk
      refine ⟨by omega, ?_⟩
      have hkey : k.key - n = (k.key - (n + 1)) + 1 := by omega
      rw [hkey]
      simpa using h2

/-! ## Claim theorems -/

/-- Claim C1: for every report with completion flag true, the actions cell
is a download control whose target path equals the base path concatenated
with `/_admin/v1/stmtbundle/` followed by the bundle identifier of the
report. -/
theorem c1_download_target_path (props : DiagnosticsViewProps) (basePath : String)
    (d : StatementDiagnosticsReport) (h : d.completed = true) :
    actionsCell props basePath d =
      ActionsCell.downloadButton
        (basePath ++ "/_admin/v1/stmtbundle/" ++ templateValue d.statement_diagnostics_id)
        (onDownloadDiagnosticBundleClick props d) := by
  simp [actionsCell, h, stmtBundleHref]

/-- Witness for C1: for bundle identifier 42 the rendered path is the base
path followed by `/_admin/v1/stmtbundle/42`. -/
theorem c1_download_target_path_witness :
    sampleCompletedReport.completed = true ∧
    actionsCell sampleProps "/base" sampleCompletedReport =
      ActionsCell.downloadButton "/base/_admin/v1/stmtbundle/42"
        [Effect.downloadClicked "SELECT _"] :=
  ⟨rfl,
   (c1_download_target_path sampleProps "/base" sampleCompletedReport rfl).trans
     (by decide)⟩

/-- Claim C2: the ready-to-request predicate is true iff every report in
the full unfiltered list is completed (vacuously true for the empty list),
and it alone gates both visibility and enablement of the activate
diagnostics control in the populated view: the button is rendered exactly
when the predicate holds, and is then enabled. -/
theorem c2_ready_gates_activate (props : DiagnosticsViewProps)
    (state : DiagnosticsViewState) (h : props.hasData = true) :
    (readyToRequestDiagnostics props.diagnosticsReports = true ↔
       ∀ r ∈ props.diagnosticsReports, r.completed = true) ∧
    readyToRequestDiagnostics [] = true ∧
    render props state =
      ViewOutput.populatedView
        ⟨if readyToRequestDiagnostics props.diagnosticsReports then some true
          else none,
         activateDiagnosticsClick props,
         dataSource props.diagnosticsReports props.currentScale,
         state.sortSetting,
         props.showDiagnosticsViewLink⟩ := by
  refine ⟨?_, rfl, ?_⟩
  · simp [readyToRequestDiagnostics, List.all_eq_true]
  · cases hr : readyToRequestDiagnostics props.diagnosticsReports <;>
      simp [render, h, hr]

/-- Witness for C2: with a single completed report the predicate holds and
the populated view renders the activate button enabled. -/
theorem c2_ready_gates_activate_witness :
    sampleProps.hasData = true ∧
    render sampleProps initialState =
      ViewOutput.populatedView
        ⟨some true, [Effect.showModalFor (some "SELECT _")],
         [⟨sampleCompletedReport, 0⟩], ⟨true, "activatedOn"⟩, false⟩ :=
  ⟨rfl,
   ((c2_ready_gates_activate sampleProps initialState rfl).2.2).trans (by decide)⟩

/-- Claim C3: the filtered data source is an order-preserving sub-sequence
of the input report list, and every rendered report has a request
timestamp inside the window implied by the current time scale. -/
theorem c3_datasource_subsequence (reports : List StatementDiagnosticsReport)
    (ts : TimeScale) :
    ((dataSource reports ts).map KeyedReport.report).Sublist reports ∧
    (dataSource reports ts).all
      (fun k => inWindow ts k.report.requested_at) = true := by
  constructor
  · have h1 : (dataSource reports ts).Sublist (withKeys reports 0) :=
      List.filter_sublist _
    have h2 := h1.map KeyedReport.report
    rwa [withKeys_map_report reports 0] at h2
  · simp only [dataSource, filterByTimeScale, List.all_eq_true]
    intro k hk
    exact (List.mem_filter.mp hk).2

/-- Claim C4: for a pending report row of the data source, the actions
cell is a cancel control whose activation fires the cancel callback with
that report value, and the report is an element of the input list. -/
theorem c4_cancel_calls_with_report (props : DiagnosticsViewProps)
    (basePath : String) (reports : List StatementDiagnosticsReport)
    (ts : TimeScale) (k : KeyedReport)
    (hk : k ∈ dataSource reports ts)
    (hpend : k.report.completed = false)
    (hcb : props.hasOnDiagnosticCancelRequestClick = true) :
    actionsCell props basePath k.report =
      ActionsCell.cancelButton [Effect.cancelClicked k.report] ∧
    k.report ∈ reports := by
  constructor
  · simp [actionsCell, hpend, onDiagnosticCancelRequestClick, hcb]
  · simp only [dataSource, filterByTimeScale] at hk
    have hmem : k ∈ withKeys reports 0 := List.mem_of_mem_filter hk
    have hmap := List.mem_map_of_mem KeyedReport.report hmem
    rwa [withKeys_map_report reports 0] at hmap

/-- Witness for C4: a concrete pending report inside the window yields a
cancel control carrying that report. -/
theorem c4_cancel_calls_with_report_witness :
    ((⟨samplePendingReport, 0⟩ : KeyedReport) ∈
       dataSource [samplePendingReport] sampleScale) ∧
    samplePendingReport.completed = false ∧
    sampleProps.hasOnDiagnosticCancelRequestClick = true ∧
    actionsCell sampleProps "/base" samplePendingReport =
      ActionsCell.cancelButton [Effect.cancelClicked samplePendingReport] ∧
    samplePendingReport ∈ [samplePendingReport] := by
  have H := c4_cancel_calls_with_report sampleProps "/base" [samplePendingReport]
    sampleScale ⟨samplePendingReport, 0⟩ (by decide) rfl rfl
  exact ⟨by decide, rfl, rfl, H.1, H.2⟩

/-- Claim C5: for every column title and direction, a user sort action
fires the sort-change callback with exactly the fixed label "Diagnostics",
the column title and the direction, and installs the matching local sort
state; in particular for column "status" with ascending false. -/
theorem c5_sorting_change (props : DiagnosticsViewProps) (ss : SortSetting)
    (h : props.hasOnSortingChange = true) :
    handleSortingChange props ss =
      ([Effect.sortingChanged "Diagnostics" ss.columnTitle ss.ascending],
       ⟨⟨ss.ascending, ss.columnTitle⟩⟩) := by
  simp [handleSortingChange, h]

/-- Witness for C5: sorting on "status" descending fires
("Diagnostics", "status", false) and leaves that sort state. -/
theorem c5_sorting_change_witness :
    sampleProps.hasOnSortingChange = true ∧
    handleSortingChange sampleProps ⟨false, "status"⟩ =
      ([Effect.sortingChanged "Diagnostics" "status" false],
       ⟨⟨false, "status"⟩⟩) :=
  ⟨rfl, c5_sorting_change sampleProps ⟨false, "status"⟩ rfl⟩

/-- Claim C6: on unmount the dismiss-alert callback is invoked
unconditionally and exactly once, for every props value. -/
theorem c6_unmount_dismisses_once (props : DiagnosticsViewProps) :
    componentWillUnmount props = [Effect.dismissAlert] ∧
    (componentWillUnmount props).count Effect.dismissAlert = 1 :=
  ⟨rfl, rfl⟩

/-- Claim C7: whenever `hasData` is false the render output is the
empty-state view, irrespective of the report list contents. -/
theorem c7_empty_state (props : DiagnosticsViewProps)
    (state : DiagnosticsViewState) (h : props.hasData = false) :
    render props state = ViewOutput.emptyView (emptyDiagnosticsView props) := by
  simp [render, h]

/-- Witness for C7: props with `hasData = false` and a nonempty report
list still render the empty-state view. -/
theorem c7_empty_state_witness :
    sampleEmptyStateProps.hasData = false ∧
    render sampleEmptyStateProps initialState =
      ViewOutput.emptyView ⟨[Effect.showModalFor none], true⟩ :=
  ⟨rfl, (c7_empty_state sampleEmptyStateProps initialState rfl).trans (by decide)⟩

/-- Claim C8: both the status column and the actions column sort by the
string form of the completion flag, so reports with equal completion flags
have equal sort keys. -/
theorem c8_sort_keys (d1 d2 : StatementDiagnosticsReport)
    (h : d1.completed = d2.completed) :
    statusSortKey d1 = toString d1.completed ∧
    actionsSortKey d1 = statusSortKey d1 ∧
    statusSortKey d1 = statusSortKey d2 := by
  refine ⟨rfl, rfl, ?_⟩
  simp [statusSortKey, h]

/-- Witness for C8: two distinct pending reports share the sort key
"false" in both columns. -/
theorem c8_sort_keys_witness :
    (samplePendingReport.completed =
       (⟨"9", "SELECT 1", false, none, 5⟩ : StatementDiagnosticsReport).completed) ∧
    statusSortKey samplePendingReport = "false" ∧
    actionsSortKey samplePendingReport = statusSortKey samplePendingReport ∧
    statusSortKey samplePendingReport =
      statusSortKey ⟨"9", "SELECT 1", false, none, 5⟩ := by
  have H := c8_sort_keys samplePendingReport ⟨"9", "SELECT 1", false, none, 5⟩ rfl
  exact ⟨rfl, H.1.trans (by decide), H.2.1, H.2.2⟩

/-- Claim C9: when an optional callback or the ref target is absent, the
corresponding interaction fires no callback at all; as total functions,
the handlers raise no exception. -/
theorem c9_missing_callbacks_noop (props : DiagnosticsViewProps)
    (d : StatementDiagnosticsReport) (ss : SortSetting)
    (h1 : props.hasOnDownloadDiagnosticBundleClick = false)
    (h2 : props.hasOnDiagnosticCancelRequestClick = false)
    (h3 : props.hasOnSortingChange = false)
    (h4 : props.hasActivateDiagnosticsRef = false) :
    onDownloadDiagnosticBundleClick props d = [] ∧
    onDiagnosticCancelRequestClick props d = [] ∧
    (handleSortingChange props ss).1 = [] ∧
    activateDiagnosticsClick props = [] := by
  simp [onDownloadDiagnosticBundleClick, onDiagnosticCancelRequestClick,
        handleSortingChange, activateDiagnosticsClick, h1, h2, h3, h4]

/-- Witness for C9: with every optional callback absent, all four
interactions produce no effects. -/
theorem c9_missing_callbacks_noop_witness :
    sampleNoCallbackProps.hasOnDownloadDiagnosticBundleClick = false ∧
    sampleNoCallbackProps.hasOnDiagnosticCancelRequestClick = false ∧
    sampleNoCallbackProps.hasOnSortingChange = false ∧
    sampleNoCallbackProps.hasActivateDiagnosticsRef = false ∧
    (onDownloadDiagnosticBundleClick sampleNoCallbackProps samplePendingReport = [] ∧
     onDiagnosticCancelRequestClick sampleNoCallbackProps samplePendingReport = [] ∧
     (handleSortingChange sampleNoCallbackProps ⟨false, "status"⟩).1 = [] ∧
     activateDiagnosticsClick sampleNoCallbackProps = []) :=
  ⟨rfl, rfl, rfl, rfl,
   c9_missing_callbacks_noop sampleNoCallbackProps samplePendingReport
     ⟨false, "status"⟩ rfl rfl rfl rfl⟩

/-- Claim C10: every data-source row carries as key its report position in
the full unfiltered input list, and its report component equals the input
report at that position — keys are assigned before filtering. -/
theorem c10_keys_index_unfiltered (reports : List StatementDiagnosticsReport)
    (ts : TimeScale) :
    (dataSource reports ts).all
      (fun k => decide (reports[k.key]? = some k.report)) = true := by
  simp only [List.all_eq_true, decide_eq_true_eq]
  intro k hk
  simp only [dataSource, filterByTimeScale] at hk
  have hmem : k ∈ withKeys reports 0 := List.mem_of_mem_filter hk
  have h := withKeys_lookup reports 0 k hmem
  simpa using h.2
